import Mathlib

/-!
Shallow embedding of the FAQ retrieval core of `banco.py`
(`garantir_banco_vetorial_de_xlsx` and `buscar_perguntas_no_banco`).

Spreadsheet cells are modelled as `Option String`: `none` is a
blank/missing cell (pandas `NaN`), `some s` is a cell holding text `s`.
`str()` of a `NaN` cell yields the literal string `"nan"`; `pd.isna`
is `Option.isNone`.  The ChromaDB store is modelled as an association
list of named collections inside an explicit state; the embedding model
and the vector search (external libraries) are abstracted as recorded
effects and as a query-function parameter, respectively.
-/

namespace Gynocare

/-- One raw spreadsheet row restricted to the first three columns
(`df = df.iloc[:, :3]; df.columns = ["pergunta", "idade", "resposta"]`). -/
structure LinhaPlanilha where
  pergunta : Option String
  idade : Option String
  resposta : Option String
deriving Repr, DecidableEq

/-- `str()` applied to a cell: a missing cell (`NaN`) prints as `"nan"`. -/
def celulaParaTexto : Option String → String
  | none => "nan"
  | some s => s

/-- Python `str.strip()`: drop leading and trailing whitespace. -/
def aparar (s : String) : String :=
  ⟨((s.data.dropWhile Char.isWhitespace).reverse.dropWhile Char.isWhitespace).reverse⟩

/-- Python `str.lower()`: lowercase every character. -/
def minusculas (s : String) : String :=
  ⟨s.data.map Char.toLower⟩

/-- `df["pergunta"] = df["pergunta"].ffill()`: a missing question cell
inherits the nearest preceding non-missing value; `ant` is the value
carried in from the rows above (initially `none`). Only the `pergunta`
column is touched. -/
def ffillPergunta : List LinhaPlanilha → Option String → List LinhaPlanilha
  | [], _ => []
  | l :: ls, ant =>
    match l.pergunta with
    | none => { l with pergunta := ant } :: ffillPergunta ls ant
    | some q => l :: ffillPergunta ls (some q)

/-- One `{"idade": ..., "resposta": ...}` dictionary appended during grouping. -/
structure ItemIdade where
  idade : String
  resposta : String
deriving Repr, DecidableEq

/-- A row after the per-row normalisation inside the grouping loop:
`chave` is `str(row["pergunta"]).strip()`, and `item` holds
`"N/A" if pd.isna(c) else str(c).strip()` for the other two columns. -/
structure LinhaProcessada where
  chave : String
  item : ItemIdade
deriving Repr, DecidableEq

/-- `"N/A" if pd.isna(c) else str(c).strip()`. -/
def normalizarCelula : Option String → String
  | none => "N/A"
  | some s => aparar s

/-- Per-row normalisation of the grouping loop body (before the drop test). -/
def processarLinha (l : LinhaPlanilha) : LinhaProcessada :=
  { chave := aparar (celulaParaTexto l.pergunta)
    item := { idade := normalizarCelula l.idade
              resposta := normalizarCelula l.resposta } }

/-- `if not pergunta_orig or pergunta_orig.lower() == "nan": continue`. -/
def linhaDescartada (chave : String) : Bool :=
  chave == "" || minusculas chave == "nan"

/-- The loader: forward-fill the question column, then normalise each row. -/
def carregarLinhas (ls : List LinhaPlanilha) : List LinhaProcessada :=
  (ffillPergunta ls none).map processarLinha

/-- `perguntas_agrupadas[pergunta_orig].append(...)` on an insertion-ordered
dictionary: append to the existing key's list, or add a new key at the end. -/
def inserirAgrupado (acc : List (String × List ItemIdade)) (chave : String)
    (it : ItemIdade) : List (String × List ItemIdade) :=
  match acc with
  | [] => [(chave, [it])]
  | (k, l) :: resto =>
    if k = chave then (k, l ++ [it]) :: resto
    else (k, l) :: inserirAgrupado resto chave it

/-- The grouping loop over the processed rows (Python dicts preserve
insertion order, so the accumulator is an ordered association list). -/
def agruparLinhas : List LinhaProcessada → List (String × List ItemIdade) →
    List (String × List ItemIdade)
  | [], acc => acc
  | l :: ls, acc =>
    if linhaDescartada l.chave then agruparLinhas ls acc
    else agruparLinhas ls (inserirAgrupado acc l.chave l.item)

/-- Loader plus Grouper: `perguntas_agrupadas` as built from the raw rows. -/
def agruparPerguntas (ls : List LinhaPlanilha) : List (String × List ItemIdade) :=
  agruparLinhas (carregarLinhas ls) []

/-- Ordered-dictionary lookup. -/
def buscarChave (q : String) : List (String × List ItemIdade) → Option (List ItemIdade)
  | [] => none
  | (k, l) :: resto => if k = q then some l else buscarChave q resto

/-- The valid (non-dropped) rows of a processed row list. -/
def linhasValidas (ls : List LinhaProcessada) : List LinhaProcessada :=
  ls.filter (fun l => !linhaDescartada l.chave)

/-- The items contributed to key `q`, in row order. -/
def contribuicoes (q : String) (ls : List LinhaProcessada) : List ItemIdade :=
  ((linhasValidas ls).filter (fun l => l.chave = q)).map (·.item)

/-- First-seen-order deduplication, carrying the keys already seen. -/
def chavesUnicasDesde : List String → List String → List String
  | [], _ => []
  | c :: cs, vistas =>
    if c ∈ vistas then chavesUnicasDesde cs vistas
    else c :: chavesUnicasDesde cs (vistas ++ [c])

/-- First-seen-order deduplication of a key list. -/
def chavesUnicas (l : List String) : List String := chavesUnicasDesde l []

/-! ## Answer Formatter (`markdown_table` construction in `buscar_perguntas_no_banco`) -/

/-- `str.replace("|", "\\|")` at character level: every pipe gains a
preceding backslash. -/
def escaparPipeLista : List Char → List Char
  | [] => []
  | c :: cs => if c = '|' then '\\' :: '|' :: escaparPipeLista cs else c :: escaparPipeLista cs

/-- `valor.replace("|", "\\|")`. -/
def escaparPipe (s : String) : String := ⟨escaparPipeLista s.data⟩

/-- One decoded JSON item as seen by the formatter: `item.get("idade", "N/A")`
and `item.get("resposta", "N/A")` may each be missing. -/
structure ItemJson where
  idade : Option String
  resposta : Option String
deriving Repr, DecidableEq

/-- `f"| {idade_esc} | {resp_esc} |"` for one item, with `.get` defaults. -/
def montarLinhaTabela (it : ItemJson) : String :=
  "| " ++ escaparPipe (it.idade.getD "N/A") ++ " | "
    ++ escaparPipe (it.resposta.getD "N/A") ++ " |"

/-- The fixed two-row table header. -/
def cabecalhoTabela : List String :=
  ["| Idade    | Resposta Correspondente |",
   "| :------- | :---------------------- |"]

/-- `"| N/A      | Nenhuma resposta encontrada |"`, appended when the
decoded answer list is empty. -/
def linhaSemResposta : String := "| N/A      | Nenhuma resposta encontrada |"

/-- The `markdown_table` list of lines for one match. -/
def montarTabela (itens : List ItemJson) : List String :=
  cabecalhoTabela ++
    (if itens.isEmpty then [linhaSemResposta] else itens.map montarLinhaTabela)

/-- `tabela_final = "\n".join(markdown_table)`. -/
def montarTabelaFinal (itens : List ItemJson) : String :=
  String.intercalate "\n" (montarTabela itens)

/-! ### Re-parsing a rendered data row

The round-trip direction: split a rendered row on its unescaped pipe
characters, peel the single framing space off each interior field, and
un-escape `\|` back to `|`. -/

/-- Prepend characters onto the first field of a split result. -/
def juntarPrimeiro (pre : List Char) : List (List Char) → List (List Char)
  | [] => [pre]
  | f :: fs => (pre ++ f) :: fs

/-- Split a character list at every unescaped `'|'`: scanning left to
right, a `"\\|"` pair stays inside the current field, any other `'|'`
ends the current field. -/
def dividirNaoEscapado : List Char → List (List Char)
  | [] => [[]]
  | c :: cs =>
    if c = '|' then [] :: dividirNaoEscapado cs
    else if c = '\\' then
      match cs with
      | [] => [['\\']]
      | c2 :: cs2 =>
        if c2 = '|' then juntarPrimeiro ['\\', '|'] (dividirNaoEscapado cs2)
        else juntarPrimeiro ['\\'] (dividirNaoEscapado (c2 :: cs2))
    else juntarPrimeiro [c] (dividirNaoEscapado cs)

/-- Inverse of the escaping: `"\\|"` back to `"|"` (Python `str.replace`
scans left to right over non-overlapping occurrences). -/
def desescaparPipeLista : List Char → List Char
  | [] => []
  | c :: cs =>
    if c = '\\' then
      match cs with
      | [] => ['\\']
      | c2 :: cs2 =>
        if c2 = '|' then '|' :: desescaparPipeLista cs2
        else '\\' :: desescaparPipeLista (c2 :: cs2)
    else c :: desescaparPipeLista cs

/-- Every literal `'|'` in the list is consumed as part of a `"\\|"`
pair in a left-to-right scan, i.e. appears prefixed by a backslash. -/
def pipesEscapados : List Char → Bool
  | [] => true
  | c :: cs =>
    if c = '|' then false
    else if c = '\\' then
      match cs with
      | [] => true
      | c2 :: cs2 =>
        if c2 = '|' then pipesEscapados cs2
        else pipesEscapados (c2 :: cs2)
    else pipesEscapados cs

/-- A rendered field is `' ' :: valor ++ [' ']`; strip exactly the framing
spaces. -/
def analisarCampo (f : List Char) : Option (List Char) :=
  match f with
  | [] => none
  | c :: cs =>
    if c = ' ' then
      match cs.getLast? with
      | some d => if d = ' ' then some cs.dropLast else none
      | none => none
    else none

/-- Parse one rendered data row back into its `(idade, resposta)` pair. -/
def analisarLinha (linha : String) : Option (String × String) :=
  match dividirNaoEscapado linha.data with
  | [[], f1, f2, []] =>
    match analisarCampo f1, analisarCampo f2 with
    | some v1, some v2 =>
      some (⟨desescaparPipeLista v1⟩, ⟨desescaparPipeLista v2⟩)
    | _, _ => none
  | _ => none

/-! ## JSON serialisation (`json.dumps(respostas_list)`)

Model of the Python `json` module's default encoder for the specific
shape serialised here: a list of two-field string dictionaries. -/

/-- Four-digit lowercase hexadecimal rendering of a code unit. -/
def hex4 (n : Nat) : String :=
  let dig := fun (d : Nat) => String.singleton (Nat.digitChar d)
  dig (n / 4096 % 16) ++ dig (n / 256 % 16) ++ dig (n / 16 % 16) ++ dig (n % 16)

/-- JSON escape of one character, `ensure_ascii=True` (the default). -/
def escaparJsonChar (c : Char) : String :=
  if c = '"' then "\\\""
  else if c = '\\' then "\\\\"
  else if c = '\n' then "\\n"
  else if c = '\t' then "\\t"
  else if c = '\r' then "\\r"
  else if c.toNat = 8 then "\\b"
  else if c.toNat = 12 then "\\f"
  else if c.toNat < 32 then "\\u" ++ hex4 c.toNat
  else if c.toNat < 127 then String.singleton c
  else if c.toNat < 65536 then "\\u" ++ hex4 c.toNat
  else
    let v := c.toNat - 65536
    "\\u" ++ hex4 (55296 + v / 1024) ++ "\\u" ++ hex4 (56320 + v % 1024)

/-- `json.dumps` of a string. -/
def dumpsString (s : String) : String :=
  "\"" ++ String.join (s.data.map escaparJsonChar) ++ "\""

/-- `json.dumps` of one `{"idade": ..., "resposta": ...}` dictionary. -/
def dumpsItem (it : ItemIdade) : String :=
  "\x7b\"idade\": " ++ dumpsString it.idade
    ++ ", \"resposta\": " ++ dumpsString it.resposta ++ "\x7d"

/-- `json.dumps(respostas_list)`. -/
def dumpsLista (its : List ItemIdade) : String :=
  "[" ++ String.intercalate ", " (its.map dumpsItem) ++ "]"

/-! ## Index Builder (`garantir_banco_vetorial_de_xlsx`) -/

/-- One persisted index entry: id, document (the text that is embedded)
and the two metadata fields. -/
structure EntradaIndice where
  id : String
  documento : String
  perguntaOriginal : String
  respostasJson : String
deriving Repr, DecidableEq

/-- A named ChromaDB collection's observable content. -/
structure Colecao where
  itens : List EntradaIndice
deriving Repr, DecidableEq

/-- `collection.count()`. -/
def Colecao.contagem (c : Colecao) : Nat := c.itens.length

/-- The persistent store at one `diretorio_db`: whether the directory
exists, and the named collections inside it (insertion ordered). -/
structure EstadoDB where
  dirExiste : Bool
  colecoes : List (String × Colecao)
deriving Repr, DecidableEq

/-- `client.get_collection(name=...)`: succeeds exactly when a collection
of that name exists. -/
def obterColecao (nome : String) : List (String × Colecao) → Option Colecao
  | [] => none
  | (n, c) :: resto => if n = nome then some c else obterColecao nome resto

/-- `client.delete_collection(name=...)`. -/
def removerColecao (nome : String) (cs : List (String × Colecao)) :
    List (String × Colecao) :=
  cs.filter (fun p => p.1 ≠ nome)

/-- Replace the named collection's content. -/
def gravarColecao (nome : String) (c : Colecao) (cs : List (String × Colecao)) :
    List (String × Colecao) :=
  cs.map (fun p => if p.1 = nome then (nome, c) else p)

/-- Externally observable side work of a build: reading the spreadsheet,
computing one embedding per document, one bulk insert of `n` entries. -/
inductive Efeito where
  | lerPlanilha
  | embutir (texto : String)
  | adicionar (n : Nat)
deriving Repr, DecidableEq

/-- The `ids_para_chroma` / `documentos_para_embedding` /
`metadados_para_chroma` loop: sequential ids `q_excel_<n>`, the unique
question as document, the grouped answers JSON in the metadata; a
(defensively handled) empty answer list is skipped without consuming an id. -/
def montarEntradas : List (String × List ItemIdade) → Nat → List EntradaIndice
  | [], _ => []
  | (q, rs) :: resto, n =>
    if rs.isEmpty then montarEntradas resto n
    else { id := "q_excel_" ++ toString n
           documento := q
           perguntaOriginal := q
           respostasJson := dumpsLista rs } :: montarEntradas resto (n + 1)

/-- The build tail of `garantir_banco_vetorial_de_xlsx`, entered once the
early-return/deletion phase is done: read the spreadsheet (`none` models a
read failure), group, abort on an empty grouping, create the collection
(falling back to the existing one on a duplicate-name race), then bulk
insert. Returns the resulting collection, the new state and the effects. -/
def construirColecao (planilha : Option (List LinhaPlanilha)) (nome : String)
    (st : EstadoDB) : Option Colecao × EstadoDB × List Efeito :=
  match planilha with
  | none => (none, st, [])
  | some linhas =>
    let agr := agruparPerguntas linhas
    if agr.isEmpty then (none, st, [Efeito.lerPlanilha])
    else
      let criada :=
        match obterColecao nome st.colecoes with
        | some c => (c, st)
        | none =>
          (Colecao.mk [], { st with colecoes := st.colecoes ++ [(nome, Colecao.mk [])] })
      let entradas := montarEntradas agr 0
      if entradas.isEmpty then (none, criada.2, [Efeito.lerPlanilha])
      else
        let nova := Colecao.mk (criada.1.itens ++ entradas)
        (some nova,
         { criada.2 with colecoes := gravarColecao nome nova criada.2.colecoes },
         Efeito.lerPlanilha :: entradas.map (fun e => Efeito.embutir e.documento)
           ++ [Efeito.adicionar entradas.length])

/-- `garantir_banco_vetorial_de_xlsx`: ensure the persistence directory,
then — unless a rebuild is forced — return any existing collection
unchanged; on a forced rebuild delete the old collection first; otherwise
fall through to the build tail. -/
def garantirBancoVetorial (planilha : Option (List LinhaPlanilha)) (nome : String)
    (forcarReconstrucao : Bool) (st : EstadoDB) :
    Option Colecao × EstadoDB × List Efeito :=
  let st1 : EstadoDB := { st with dirExiste := true }
  if forcarReconstrucao then
    construirColecao planilha nome { st1 with colecoes := removerColecao nome st1.colecoes }
  else
    match obterColecao nome st1.colecoes with
    | some c => (some c, st1, [])
    | none => construirColecao planilha nome st1

/-! ## Retriever (`buscar_perguntas_no_banco`) -/

/-- One raw hit of `collection.query`: document, the metadata's
`respostas_por_idade_json` value (possibly absent, hence
`metadata.get(..., "[]")`), and its distance. Distances are only passed
through, so their type is a parameter. -/
structure Acerto (δ : Type) where
  documento : String
  respostasJson : Option String
  distancia : δ
deriving Repr, DecidableEq

/-- `buscar_perguntas_no_banco`.  The nearest-neighbour search itself and
`json.loads` are external libraries, abstracted as the function arguments
`consulta` (which may throw, `Except.error`) and `decodificar` (which may
fail to parse, `none`). Returns `(pergunta_base, tabela_final, distancia)`
triples. -/
def buscarPerguntas {δ : Type} (st : EstadoDB) (nome : String)
    (consulta : Colecao → Except Unit (List (Acerto δ)))
    (decodificar : String → Option (List ItemJson)) :
    List (String × String × δ) :=
  if st.dirExiste = false then []
  else
    match obterColecao nome st.colecoes with
    | none => []
    | some col =>
      match consulta col with
      | Except.error _ => []
      | Except.ok acertos =>
        acertos.map (fun a =>
          let itens :=
            match decodificar (a.respostasJson.getD "[]") with
            | none => []
            | some l => l
          (a.documento, montarTabelaFinal itens, a.distancia))

/-! ## Lemmas about the Grouper -/

theorem buscarChave_inserir (acc : List (String × List ItemIdade)) (chave q : String)
    (it : ItemIdade) :
    buscarChave q (inserirAgrupado acc chave it) =
      if chave = q then some (((buscarChave q acc).getD []) ++ [it])
      else buscarChave q acc := by
  induction acc with
  | nil =>
    by_cases h : chave = q <;> simp [inserirAgrupado, buscarChave, h]
  | cons p resto ih =>
    obtain ⟨k, l⟩ := p
    by_cases hk : k = chave
    · subst hk
      by_cases hq : k = q
      · subst hq; simp [inserirAgrupado, buscarChave]
      · simp [inserirAgrupado, buscarChave, hq]
    · have hck : ¬chave = k := fun h => hk h.symm
      by_cases hq : k = q
      · subst hq
        simp [inserirAgrupado, buscarChave, hk, hck]
      · simp [inserirAgrupado, buscarChave, hk, hq, ih]

theorem contribuicoes_nil (q : String) : contribuicoes q [] = [] := rfl

theorem contribuicoes_cons (q : String) (l : LinhaProcessada) (ls : List LinhaProcessada) :
    contribuicoes q (l :: ls) =
      if linhaDescartada l.chave then contribuicoes q ls
      else if l.chave = q then l.item :: contribuicoes q ls
      else contribuicoes q ls := by
  by_cases hd : linhaDescartada l.chave
  · simp [contribuicoes, linhasValidas, List.filter_cons, hd]
  · by_cases hq : l.chave = q
    · subst hq; simp [contribuicoes, linhasValidas, List.filter_cons, hd]
    · simp [contribuicoes, linhasValidas, List.filter_cons, hd, hq]

theorem agruparLinhas_buscarChave (ls : List LinhaProcessada)
    (acc : List (String × List ItemIdade)) (q : String) :
    buscarChave q (agruparLinhas ls acc) =
      if buscarChave q acc = none ∧ contribuicoes q ls = [] then none
      else some (((buscarChave q acc).getD []) ++ contribuicoes q ls) := by
  induction ls generalizing acc with
  | nil =>
    cases h : buscarChave q acc with
    | none => simp [agruparLinhas, contribuicoes_nil, h]
    | some l => simp [agruparLinhas, contribuicoes_nil, h]
  | cons l ls ih =>
    by_cases hd : linhaDescartada l.chave
    · rw [show agruparLinhas (l :: ls) acc = agruparLinhas ls acc by
        simp [agruparLinhas, hd]]
      rw [ih, contribuicoes_cons]
      simp [hd]
    · rw [show agruparLinhas (l :: ls) acc
          = agruparLinhas ls (inserirAgrupado acc l.chave l.item) by
        simp [agruparLinhas, hd]]
      rw [ih, contribuicoes_cons, buscarChave_inserir]
      by_cases hq : l.chave = q
      · subst hq
        cases h : buscarChave l.chave acc <;> simp [h, hd]
      · simp [hq, hd]

theorem mapFst_inserir (acc : List (String × List ItemIdade)) (chave : String)
    (it : ItemIdade) :
    (inserirAgrupado acc chave it).map Prod.fst =
      if chave ∈ acc.map Prod.fst then acc.map Prod.fst
      else acc.map Prod.fst ++ [chave] := by
  induction acc with
  | nil => simp [inserirAgrupado]
  | cons p resto ih =>
    obtain ⟨k, l⟩ := p
    by_cases hk : k = chave
    · subst hk; simp [inserirAgrupado]
    · have hck : ¬chave = k := fun h => hk h.symm
      by_cases hm : chave ∈ resto.map Prod.fst
      · simp [inserirAgrupado, hk, ih, hm, hck]
      · simp [inserirAgrupado, hk, ih, hm, hck]

theorem linhasValidas_cons (l : LinhaProcessada) (ls : List LinhaProcessada) :
    linhasValidas (l :: ls) =
      if linhaDescartada l.chave then linhasValidas ls
      else l :: linhasValidas ls := by
  by_cases hd : linhaDescartada l.chave <;> simp [linhasValidas, List.filter_cons, hd]

theorem agruparLinhas_chaves (ls : List LinhaProcessada)
    (acc : List (String × List ItemIdade)) :
    (agruparLinhas ls acc).map Prod.fst =
      acc.map Prod.fst ++
        chavesUnicasDesde ((linhasValidas ls).map (·.chave)) (acc.map Prod.fst) := by
  induction ls generalizing acc with
  | nil => simp [agruparLinhas, linhasValidas, chavesUnicasDesde]
  | cons l ls ih =>
    by_cases hd : linhaDescartada l.chave
    · rw [show agruparLinhas (l :: ls) acc = agruparLinhas ls acc by
        simp [agruparLinhas, hd]]
      rw [ih, linhasValidas_cons, if_pos hd]
    · rw [show agruparLinhas (l :: ls) acc
          = agruparLinhas ls (inserirAgrupado acc l.chave l.item) by
        simp [agruparLinhas, hd]]
      rw [ih, linhasValidas_cons, if_neg hd, mapFst_inserir]
      by_cases hm : l.chave ∈ acc.map Prod.fst
      · rw [if_pos hm]
        simp [chavesUnicasDesde, hm]
      · rw [if_neg hm]
        simp [chavesUnicasDesde, hm]

/-! ## Lemmas about the Loader -/

theorem ffill_map_item (ls : List LinhaPlanilha) (ant : Option String) :
    (ffillPergunta ls ant).map (fun l => (processarLinha l).item) =
      ls.map (fun l =>
        ItemIdade.mk (normalizarCelula l.idade) (normalizarCelula l.resposta)) := by
  induction ls generalizing ant with
  | nil => rfl
  | cons l ls ih =>
    cases h : l.pergunta <;> simp only [ffillPergunta, h, List.map_cons, ih] <;> rfl

theorem carregar_itens (ls : List LinhaPlanilha) :
    (carregarLinhas ls).map (·.item) =
      ls.map (fun l =>
        ItemIdade.mk (normalizarCelula l.idade) (normalizarCelula l.resposta)) := by
  unfold carregarLinhas
  rw [List.map_map]
  exact ffill_map_item ls none

theorem ffill_todos_none (ls : List LinhaPlanilha) (q : String)
    (h : ∀ r ∈ ls, r.pergunta = none) :
    ffillPergunta ls (some q) = ls.map (fun r => { r with pergunta := some q }) := by
  induction ls with
  | nil => rfl
  | cons l ls ih =>
    have hl := h l (by simp)
    simp only [ffillPergunta, hl, List.map_cons]
    exact congrArg _ (ih (fun r hr => h r (by simp [hr])))

theorem ffill_none_prefixo (ls resto : List LinhaPlanilha)
    (h : ∀ r ∈ ls, r.pergunta = none) :
    ffillPergunta (ls ++ resto) none = ls ++ ffillPergunta resto none := by
  induction ls with
  | nil => rfl
  | cons l ls ih =>
    have hl := h l (by simp)
    have hcab : ({ l with pergunta := none } : LinhaPlanilha) = l := by
      cases l; simp_all
    simp only [List.cons_append, ffillPergunta, hl, hcab]
    exact congrArg _ (ih (fun r hr => h r (by simp [hr])))

/-- Grouping a run of rows that all carry the same valid key. -/
theorem agrupar_mesma_chave (ps : List LinhaProcessada) (k : String)
    (init : List ItemIdade) (hk : linhaDescartada k = false)
    (h : ∀ p ∈ ps, p.chave = k) :
    agruparLinhas ps [(k, init)] = [(k, init ++ ps.map (·.item))] := by
  induction ps generalizing init with
  | nil => simp [agruparLinhas]
  | cons p ps ih =>
    have hp := h p (by simp)
    rw [show agruparLinhas (p :: ps) [(k, init)]
        = agruparLinhas ps (inserirAgrupado [(k, init)] p.chave p.item) by
      simp [agruparLinhas, hp, hk]]
    rw [show inserirAgrupado [(k, init)] p.chave p.item = [(k, init ++ [p.item])] by
      simp [inserirAgrupado, hp]]
    rw [ih (init ++ [p.item]) (fun r hr => h r (by simp [hr]))]
    simp

/-- A dropped row can be erased from the grouping input without changing
the grouping output. -/
theorem agrupar_apagar_descartada (ps : List LinhaProcessada) (i : Nat)
    (acc : List (String × List ItemIdade)) (hi : i < ps.length)
    (hd : linhaDescartada (ps.get ⟨i, hi⟩).chave = true) :
    agruparLinhas ps acc = agruparLinhas (ps.eraseIdx i) acc := by
  induction ps generalizing i acc with
  | nil => cases hi
  | cons p ps ih =>
    cases i with
    | zero =>
      simp only [List.get] at hd
      simp [agruparLinhas, hd, List.eraseIdx]
    | succ n =>
      have hn : n < ps.length := Nat.lt_of_succ_lt_succ hi
      simp only [List.get] at hd
      by_cases hdp : linhaDescartada p.chave <;>
        simp [agruparLinhas, hdp, List.eraseIdx, ih n _ hn hd]

/-- Rows that all group as dropped can be skipped as a block. -/
theorem agrupar_bloco_descartado (ps resto : List LinhaProcessada)
    (acc : List (String × List ItemIdade))
    (h : ∀ p ∈ ps, linhaDescartada p.chave = true) :
    agruparLinhas (ps ++ resto) acc = agruparLinhas resto acc := by
  induction ps with
  | nil => rfl
  | cons p ps ih =>
    have hp := h p (by simp)
    simp only [List.cons_append, agruparLinhas, hp, if_true]
    exact ih (fun r hr => h r (by simp [hr]))

/-! ## Lemmas about the store -/

theorem obter_remover (nome : String) (cs : List (String × Colecao)) :
    obterColecao nome (removerColecao nome cs) = none := by
  induction cs with
  | nil => rfl
  | cons p resto ih =>
    by_cases h : p.1 = nome
    · simpa [removerColecao, List.filter_cons, h] using ih
    · simpa [removerColecao, List.filter_cons, h, obterColecao] using ih

/-! ## Lemmas about escaping and the rendered table -/

theorem escapar_cons_pipe (cs : List Char) :
    escaparPipeLista ('|' :: cs) = '\\' :: '|' :: escaparPipeLista cs := by
  simp [escaparPipeLista]

theorem escapar_cons_outra (c : Char) (cs : List Char) (h : c ≠ '|') :
    escaparPipeLista (c :: cs) = c :: escaparPipeLista cs := by
  simp [escaparPipeLista, h]

theorem escapar_nil_iff (v : List Char) : escaparPipeLista v = [] ↔ v = [] := by
  cases v with
  | nil => simp [escaparPipeLista]
  | cons c cs => by_cases h : c = '|' <;> simp [escaparPipeLista, h]

theorem escapar_head_ne (v : List Char) (d : Char) (ds : List Char)
    (h : escaparPipeLista v = d :: ds) : d ≠ '|' := by
  cases v with
  | nil => simp [escaparPipeLista] at h
  | cons c cs =>
    by_cases hc : c = '|'
    · subst hc
      rw [escapar_cons_pipe] at h
      injection h with h1 _
      rw [← h1]; decide
    · rw [escapar_cons_outra c cs hc] at h
      injection h with h1 _
      rw [← h1]; exact hc

theorem desescapar_barra_pipe (X : List Char) :
    desescaparPipeLista ('\\' :: '|' :: X) = '|' :: desescaparPipeLista X := by
  simp [desescaparPipeLista]

theorem desescapar_barra (c2 : Char) (X : List Char) (h : c2 ≠ '|') :
    desescaparPipeLista ('\\' :: c2 :: X) = '\\' :: desescaparPipeLista (c2 :: X) := by
  simp [desescaparPipeLista, h]

theorem desescapar_outra (c : Char) (X : List Char) (h : c ≠ '\\') :
    desescaparPipeLista (c :: X) = c :: desescaparPipeLista X := by
  cases X <;> simp [desescaparPipeLista, h]

theorem desescapar_escapar (v : List Char) :
    desescaparPipeLista (escaparPipeLista v) = v := by
  induction v with
  | nil => rfl
  | cons c cs ih =>
    by_cases hp : c = '|'
    · subst hp
      rw [escapar_cons_pipe, desescapar_barra_pipe, ih]
    · by_cases hb : c = '\\'
      · subst hb
        rw [escapar_cons_outra _ _ hp]
        cases h : escaparPipeLista cs with
        | nil =>
          have hcs : cs = [] := (escapar_nil_iff cs).mp h
          subst hcs
          simp [desescaparPipeLista]
        | cons d ds =>
          have hd : d ≠ '|' := escapar_head_ne cs d ds h
          rw [desescapar_barra d ds hd, ← h, ih]
      · rw [escapar_cons_outra _ _ hp, desescapar_outra c _ hb, ih]

theorem pipes_escapados_barra_pipe (X : List Char) :
    pipesEscapados ('\\' :: '|' :: X) = pipesEscapados X := by
  simp [pipesEscapados]

theorem pipes_escapados_barra (c2 : Char) (X : List Char) (h : c2 ≠ '|') :
    pipesEscapados ('\\' :: c2 :: X) = pipesEscapados (c2 :: X) := by
  simp [pipesEscapados, h]

theorem pipes_escapados_outra (c : Char) (X : List Char) (h1 : c ≠ '|')
    (h2 : c ≠ '\\') : pipesEscapados (c :: X) = pipesEscapados X := by
  cases X <;> simp [pipesEscapados, h1, h2]

theorem pipes_escapados_escapar (v : List Char) :
    pipesEscapados (escaparPipeLista v) = true := by
  induction v with
  | nil => rfl
  | cons c cs ih =>
    by_cases hp : c = '|'
    · subst hp
      rw [escapar_cons_pipe, pipes_escapados_barra_pipe, ih]
    · by_cases hb : c = '\\'
      · subst hb
        rw [escapar_cons_outra _ _ hp]
        cases h : escaparPipeLista cs with
        | nil => simp [pipesEscapados]
        | cons d ds =>
          have hd : d ≠ '|' := escapar_head_ne cs d ds h
          rw [pipes_escapados_barra d ds hd, ← h, ih]
      · rw [escapar_cons_outra _ _ hp, pipes_escapados_outra c _ hp hb, ih]

theorem juntar_ne_nil (pre : List Char) (x : List (List Char)) :
    juntarPrimeiro pre x ≠ [] := by
  cases x <;> simp [juntarPrimeiro]

theorem juntar_nil (x : List (List Char)) (h : x ≠ []) :
    juntarPrimeiro [] x = x := by
  cases x with
  | nil => exact absurd rfl h
  | cons f fs => simp [juntarPrimeiro]

theorem juntar_juntar (a b : List Char) (x : List (List Char)) :
    juntarPrimeiro a (juntarPrimeiro b x) = juntarPrimeiro (a ++ b) x := by
  cases x <;> simp [juntarPrimeiro]

theorem dividir_pipe (X : List Char) :
    dividirNaoEscapado ('|' :: X) = [] :: dividirNaoEscapado X := by
  cases X <;> simp [dividirNaoEscapado]

theorem dividir_barra_pipe (X : List Char) :
    dividirNaoEscapado ('\\' :: '|' :: X) =
      juntarPrimeiro ['\\', '|'] (dividirNaoEscapado X) := by
  simp [dividirNaoEscapado]

theorem dividir_barra (c2 : Char) (X : List Char) (h : c2 ≠ '|') :
    dividirNaoEscapado ('\\' :: c2 :: X) =
      juntarPrimeiro ['\\'] (dividirNaoEscapado (c2 :: X)) := by
  simp [dividirNaoEscapado, h]

theorem dividir_outra (c : Char) (X : List Char) (h1 : c ≠ '|') (h2 : c ≠ '\\') :
    dividirNaoEscapado (c :: X) = juntarPrimeiro [c] (dividirNaoEscapado X) := by
  cases X <;> simp [dividirNaoEscapado, h1, h2, juntarPrimeiro]

theorem dividir_ne_nil (l : List Char) : dividirNaoEscapado l ≠ [] := by
  cases l with
  | nil => simp [dividirNaoEscapado]
  | cons c cs =>
    by_cases h : c = '|'
    · subst h; rw [dividir_pipe]; simp
    · by_cases hb : c = '\\'
      · subst hb
        cases cs with
        | nil => simp [dividirNaoEscapado, h]
        | cons c2 cs2 =>
          by_cases h2 : c2 = '|'
          · subst h2; rw [dividir_barra_pipe]; exact juntar_ne_nil _ _
          · rw [dividir_barra c2 cs2 h2]; exact juntar_ne_nil _ _
      · rw [dividir_outra c cs h hb]; exact juntar_ne_nil _ _

theorem head_escapar_append (cs rest : List Char) (h : rest.head? ≠ some '|') :
    (escaparPipeLista cs ++ rest).head? ≠ some '|' := by
  cases hc : escaparPipeLista cs with
  | nil =>
    have : cs = [] := (escapar_nil_iff cs).mp hc
    simpa using h
  | cons d ds =>
    have hd : d ≠ '|' := escapar_head_ne cs d ds hc
    simp [hd]

theorem dividir_escapar (v rest : List Char) (h : rest.head? ≠ some '|') :
    dividirNaoEscapado (escaparPipeLista v ++ rest) =
      juntarPrimeiro (escaparPipeLista v) (dividirNaoEscapado rest) := by
  induction v with
  | nil =>
    rw [show escaparPipeLista [] = [] from rfl, List.nil_append,
        juntar_nil _ (dividir_ne_nil rest)]
  | cons c cs ih =>
    by_cases hp : c = '|'
    · subst hp
      rw [escapar_cons_pipe,
          show ('\\' :: '|' :: escaparPipeLista cs) ++ rest
            = '\\' :: '|' :: (escaparPipeLista cs ++ rest) by simp,
          dividir_barra_pipe, ih, juntar_juntar]
      simp
    · by_cases hb : c = '\\'
      · subst hb
        rw [escapar_cons_outra _ _ hp,
            show ('\\' :: escaparPipeLista cs) ++ rest
              = '\\' :: (escaparPipeLista cs ++ rest) by simp]
        cases hcr : escaparPipeLista cs ++ rest with
        | nil =>
          rcases List.append_eq_nil.mp hcr with ⟨h1, h2⟩
          have hcs : cs = [] := (escapar_nil_iff cs).mp h1
          subst hcs h2
          simp [dividirNaoEscapado, juntarPrimeiro, escaparPipeLista]
        | cons c2 cs2 =>
          have hc2 : c2 ≠ '|' := by
            have hh := head_escapar_append cs rest h
            rw [hcr] at hh
            simpa using hh
          rw [dividir_barra c2 cs2 hc2, ← hcr, ih, juntar_juntar]
          simp
      · rw [escapar_cons_outra _ _ hp,
            show (c :: escaparPipeLista cs) ++ rest
              = c :: (escaparPipeLista cs ++ rest) by simp,
            dividir_outra c _ hp hb, ih, juntar_juntar]
        simp

theorem montar_linha_data (a b : String) :
    (montarLinhaTabela (ItemJson.mk (some a) (some b))).data
      = '|' :: ' ' :: (escaparPipeLista a.data ++
          (' ' :: '|' :: ' ' :: (escaparPipeLista b.data ++ [' ', '|']))) := by
  simp [montarLinhaTabela, escaparPipe, String.data_append]

/-- Splitting a rendered data row yields exactly the two framed fields. -/
theorem dividir_linha (a b : String) :
    dividirNaoEscapado (montarLinhaTabela (ItemJson.mk (some a) (some b))).data =
      [[], ' ' :: escaparPipeLista a.data ++ [' '],
       ' ' :: escaparPipeLista b.data ++ [' '], []] := by
  rw [montar_linha_data, dividir_pipe, dividir_outra ' ' _ (by decide) (by decide),
      dividir_escapar a.data _ (by simp), dividir_outra ' ' _ (by decide) (by decide),
      dividir_pipe, dividir_outra ' ' _ (by decide) (by decide),
      dividir_escapar b.data _ (by simp)]
  rw [show dividirNaoEscapado [' ', '|'] = [[' '], []] from rfl]
  simp [juntarPrimeiro]

theorem analisar_campo_certo (e : List Char) :
    analisarCampo (' ' :: e ++ [' ']) = some e := by
  simp [analisarCampo, List.getLast?_concat]

/-- Row-level round trip: parsing a rendered data row recovers the pair. -/
theorem analisar_montar (a b : String) :
    analisarLinha (montarLinhaTabela (ItemJson.mk (some a) (some b))) = some (a, b) := by
  unfold analisarLinha
  rw [dividir_linha]
  simp only [analisar_campo_certo]
  rw [desescapar_escapar a.data, desescapar_escapar b.data]

/-! ## The claims -/

/-- C1: a blank/missing question cell inherits the nearest preceding
non-blank question value (forward-fill), while blank/missing
`ageContext`/`answer` cells are never forward-filled and become the
literal `"N/A"`; consequently, when rows 2..k carry a blank question
after a non-blank row 1, all k rows group under row 1's question. -/
theorem claim_C1 (l0 : LinhaPlanilha) (resto : List LinhaPlanilha) (q : String)
    (hq : l0.pergunta = some q)
    (hresto : ∀ r ∈ resto, r.pergunta = none)
    (hvalida : linhaDescartada (aparar q) = false) :
    agruparPerguntas (l0 :: resto) =
      [(aparar q, (l0 :: resto).map (fun l =>
        ItemIdade.mk (normalizarCelula l.idade) (normalizarCelula l.resposta)))]
    ∧ (∀ ls : List LinhaPlanilha, (carregarLinhas ls).map (·.item) =
        ls.map (fun l =>
          ItemIdade.mk (normalizarCelula l.idade) (normalizarCelula l.resposta)))
    ∧ normalizarCelula none = "N/A" := by
  refine ⟨?_, carregar_itens, rfl⟩
  unfold agruparPerguntas carregarLinhas
  rw [show ffillPergunta (l0 :: resto) none = l0 :: ffillPergunta resto (some q) by
    simp [ffillPergunta, hq]]
  rw [ffill_todos_none resto q hresto]
  rw [List.map_cons, List.map_map]
  have hproc0 : processarLinha l0 =
      LinhaProcessada.mk (aparar q)
        (ItemIdade.mk (normalizarCelula l0.idade) (normalizarCelula l0.resposta)) := by
    simp [processarLinha, hq, celulaParaTexto]
  rw [hproc0]
  rw [show agruparLinhas
        (LinhaProcessada.mk (aparar q)
          (ItemIdade.mk (normalizarCelula l0.idade) (normalizarCelula l0.resposta)) ::
          resto.map (processarLinha ∘ fun r => { r with pergunta := some q })) []
      = agruparLinhas
          (resto.map (processarLinha ∘ fun r => { r with pergunta := some q }))
          [(aparar q,
            [ItemIdade.mk (normalizarCelula l0.idade) (normalizarCelula l0.resposta)])] by
    simp [agruparLinhas, hvalida, inserirAgrupado]]
  rw [agrupar_mesma_chave _ (aparar q) _ hvalida (by
    intro p hp
    rcases List.mem_map.mp hp with ⟨r, _, hr⟩
    rw [← hr]
    simp [processarLinha, celulaParaTexto])]
  simp [List.map_map]
  intro a _
  rfl

theorem claim_C1_witness :
    agruparPerguntas
        [LinhaPlanilha.mk (some " Q? ") (some "0-2") (some "r1"),
         LinhaPlanilha.mk none none (some "r2")] =
      [(aparar " Q? ",
        [ItemIdade.mk "0-2" "r1", ItemIdade.mk "N/A" "r2"])]
    ∧ (∀ ls : List LinhaPlanilha, (carregarLinhas ls).map (·.item) =
        ls.map (fun l =>
          ItemIdade.mk (normalizarCelula l.idade) (normalizarCelula l.resposta)))
    ∧ normalizarCelula none = "N/A" := by
  have h := claim_C1 (LinhaPlanilha.mk (some " Q? ") (some "0-2") (some "r1"))
    [LinhaPlanilha.mk none none (some "r2")] " Q? " rfl
    (by intro r hr; simp at hr; rw [hr]) (by decide)
  simpa [normalizarCelula, aparar] using h

/-- C2: a row whose forward-filled, trimmed question is empty or the
case-insensitive literal `"nan"` is dropped: erasing it from the loader
output changes neither the grouped records nor the persisted index
entries built from them. -/
theorem claim_C2 (linhas : List LinhaPlanilha) (i : Nat)
    (hi : i < (carregarLinhas linhas).length)
    (hdesc : linhaDescartada ((carregarLinhas linhas).get ⟨i, hi⟩).chave = true) :
    agruparPerguntas linhas = agruparLinhas ((carregarLinhas linhas).eraseIdx i) []
    ∧ montarEntradas (agruparPerguntas linhas) 0 =
        montarEntradas (agruparLinhas ((carregarLinhas linhas).eraseIdx i) []) 0 := by
  have h : agruparPerguntas linhas
      = agruparLinhas ((carregarLinhas linhas).eraseIdx i) [] :=
    agrupar_apagar_descartada (carregarLinhas linhas) i [] hi hdesc
  exact ⟨h, by rw [h]⟩

theorem claim_C2_witness :
    agruparPerguntas
        [LinhaPlanilha.mk (some "Q?") (some "0-2") (some "r1"),
         LinhaPlanilha.mk (some " nAn ") (some "3-5") (some "r2")] =
      agruparLinhas
        ((carregarLinhas
          [LinhaPlanilha.mk (some "Q?") (some "0-2") (some "r1"),
           LinhaPlanilha.mk (some " nAn ") (some "3-5") (some "r2")]).eraseIdx 1) []
    ∧ montarEntradas
        (agruparPerguntas
          [LinhaPlanilha.mk (some "Q?") (some "0-2") (some "r1"),
           LinhaPlanilha.mk (some " nAn ") (some "3-5") (some "r2")]) 0 =
      montarEntradas
        (agruparLinhas
          ((carregarLinhas
            [LinhaPlanilha.mk (some "Q?") (some "0-2") (some "r1"),
             LinhaPlanilha.mk (some " nAn ") (some "3-5") (some "r2")]).eraseIdx 1) []) 0 :=
  claim_C2
    [LinhaPlanilha.mk (some "Q?") (some "0-2") (some "r1"),
     LinhaPlanilha.mk (some " nAn ") (some "3-5") (some "r2")] 1
    (by decide) (by decide)

/-- C7: grouping the loader's output yields keys in first-seen order,
each key's items in original row order, and two rows land under the same
key exactly when their trimmed question strings are equal (exact string
match on the key, no fuzzy matching). -/
theorem claim_C7 (linhas : List LinhaPlanilha) :
    (agruparPerguntas linhas).map Prod.fst =
      chavesUnicas ((linhasValidas (carregarLinhas linhas)).map (·.chave))
    ∧ ∀ q : String,
        buscarChave q (agruparPerguntas linhas) =
          if contribuicoes q (carregarLinhas linhas) = [] then none
          else some (contribuicoes q (carregarLinhas linhas)) := by
  constructor
  · have h := agruparLinhas_chaves (carregarLinhas linhas) []
    simpa [agruparPerguntas, chavesUnicas] using h
  · intro q
    have h := agruparLinhas_buscarChave (carregarLinhas linhas) [] q
    simpa [agruparPerguntas, buscarChave] using h

/-- C10: rows with blank question cells that precede any non-blank
question have nothing to inherit: their question stays missing,
stringifies to `"nan"`, and the rows are silently dropped — the grouping
of the whole sheet equals the grouping of the remaining rows. -/
theorem claim_C10 (prefixo resto : List LinhaPlanilha)
    (h : ∀ r ∈ prefixo, r.pergunta = none) :
    carregarLinhas (prefixo ++ resto)
      = prefixo.map (fun r => LinhaProcessada.mk "nan"
          (ItemIdade.mk (normalizarCelula r.idade) (normalizarCelula r.resposta)))
        ++ carregarLinhas resto
    ∧ linhaDescartada "nan" = true
    ∧ agruparPerguntas (prefixo ++ resto) = agruparPerguntas resto := by
  have hcar : carregarLinhas (prefixo ++ resto)
      = prefixo.map (fun r => LinhaProcessada.mk "nan"
          (ItemIdade.mk (normalizarCelula r.idade) (normalizarCelula r.resposta)))
        ++ carregarLinhas resto := by
    unfold carregarLinhas
    rw [ffill_none_prefixo prefixo resto h, List.map_append]
    congr 1
    apply List.map_congr_left
    intro r hr
    have hn := h r hr
    simp [processarLinha, hn, celulaParaTexto]
    exact (by decide : aparar "nan" = "nan")
  refine ⟨hcar, by decide, ?_⟩
  unfold agruparPerguntas
  rw [hcar]
  exact agrupar_bloco_descartado _ _ [] (by
    intro p hp
    rcases List.mem_map.mp hp with ⟨r, _, hr⟩
    rw [← hr]
    show linhaDescartada "nan" = true
    decide)

theorem claim_C10_witness :
    (carregarLinhas
        [LinhaPlanilha.mk none (some "0-2") (some "r0"),
         LinhaPlanilha.mk (some "Q?") (some "3-5") (some "r1")]
      = [LinhaProcessada.mk "nan" (ItemIdade.mk "0-2" "r0")]
        ++ carregarLinhas [LinhaPlanilha.mk (some "Q?") (some "3-5") (some "r1")])
    ∧ linhaDescartada "nan" = true
    ∧ agruparPerguntas
        [LinhaPlanilha.mk none (some "0-2") (some "r0"),
         LinhaPlanilha.mk (some "Q?") (some "3-5") (some "r1")] =
      agruparPerguntas [LinhaPlanilha.mk (some "Q?") (some "3-5") (some "r1")] := by
  have h := claim_C10 [LinhaPlanilha.mk none (some "0-2") (some "r0")]
    [LinhaPlanilha.mk (some "Q?") (some "3-5") (some "r1")]
    (by intro r hr; simp at hr; rw [hr])
  simpa [normalizarCelula, aparar] using h

/-- C3: with `forceRebuild = false` and an existing collection of the
given name, the build returns that collection unchanged — no spreadsheet
read, no embedding, no insertion (empty effect list, store untouched) —
and a second build on the resulting state returns the same collection,
so the count is identical both times. -/
theorem claim_C3 (planilha planilha2 : Option (List LinhaPlanilha)) (nome : String)
    (st : EstadoDB) (c : Colecao)
    (h : obterColecao nome st.colecoes = some c) :
    garantirBancoVetorial planilha nome false st
      = (some c, { st with dirExiste := true }, [])
    ∧ garantirBancoVetorial planilha2 nome false
        (garantirBancoVetorial planilha nome false st).2.1
      = (some c, { st with dirExiste := true }, [])
    ∧ ((garantirBancoVetorial planilha nome false st).1.map Colecao.contagem
        = some c.contagem
      ∧ (garantirBancoVetorial planilha2 nome false
          (garantirBancoVetorial planilha nome false st).2.1).1.map Colecao.contagem
        = some c.contagem) := by
  have h1 : garantirBancoVetorial planilha nome false st
      = (some c, { st with dirExiste := true }, []) := by
    simp [garantirBancoVetorial, h]
  have h2 : garantirBancoVetorial planilha2 nome false
      (garantirBancoVetorial planilha nome false st).2.1
      = (some c, { st with dirExiste := true }, []) := by
    rw [h1]
    simp [garantirBancoVetorial, h]
  exact ⟨h1, h2, by rw [h1]; rfl, by rw [h2]; rfl⟩


theorem claim_C3_witness :
    garantirBancoVetorial none "col" false
        (EstadoDB.mk true [("col", Colecao.mk [EntradaIndice.mk "q_excel_0" "q" "q" "[]"])])
      = (some (Colecao.mk [EntradaIndice.mk "q_excel_0" "q" "q" "[]"]),
         EstadoDB.mk true [("col", Colecao.mk [EntradaIndice.mk "q_excel_0" "q" "q" "[]"])],
         [])
    ∧ garantirBancoVetorial none "col" false
        (garantirBancoVetorial none "col" false
          (EstadoDB.mk true
            [("col", Colecao.mk [EntradaIndice.mk "q_excel_0" "q" "q" "[]"])])).2.1
      = (some (Colecao.mk [EntradaIndice.mk "q_excel_0" "q" "q" "[]"]),
         EstadoDB.mk true [("col", Colecao.mk [EntradaIndice.mk "q_excel_0" "q" "q" "[]"])],
         [])
    ∧ ((garantirBancoVetorial none "col" false
          (EstadoDB.mk true
            [("col", Colecao.mk [EntradaIndice.mk "q_excel_0" "q" "q" "[]"])])).1.map
            Colecao.contagem
        = some (Colecao.mk [EntradaIndice.mk "q_excel_0" "q" "q" "[]"]).contagem
      ∧ (garantirBancoVetorial none "col" false
          (garantirBancoVetorial none "col" false
            (EstadoDB.mk true
              [("col", Colecao.mk [EntradaIndice.mk "q_excel_0" "q" "q" "[]"])])).2.1).1.map
            Colecao.contagem
        = some (Colecao.mk [EntradaIndice.mk "q_excel_0" "q" "q" "[]"]).contagem) :=
  claim_C3 none none "col"
    (EstadoDB.mk true [("col", Colecao.mk [EntradaIndice.mk "q_excel_0" "q" "q" "[]"])])
    (Colecao.mk [EntradaIndice.mk "q_excel_0" "q" "q" "[]"]) (by decide)

/-- C4: the query returns the empty list — and never an error — when the
storage directory does not exist, when the named collection cannot be
opened, or when the underlying search throws. -/
theorem claim_C4 {δ : Type} (st : EstadoDB) (nome : String)
    (consulta : Colecao → Except Unit (List (Acerto δ)))
    (decodificar : String → Option (List ItemJson)) :
    (st.dirExiste = false → buscarPerguntas st nome consulta decodificar = [])
    ∧ (obterColecao nome st.colecoes = none →
        buscarPerguntas st nome consulta decodificar = [])
    ∧ (∀ col, obterColecao nome st.colecoes = some col →
        consulta col = Except.error () →
        buscarPerguntas st nome consulta decodificar = []) := by
  refine ⟨?_, ?_, ?_⟩
  · intro h
    simp [buscarPerguntas, h]
  · intro h
    by_cases hdir : st.dirExiste = false
    · simp [buscarPerguntas, hdir]
    · simp only [buscarPerguntas, hdir, if_false, h]
      simp
  · intro col hcol herr
    by_cases hdir : st.dirExiste = false
    · simp [buscarPerguntas, hdir]
    · simp only [buscarPerguntas, hdir, if_false, hcol, herr]
      simp

theorem claim_C4_witness :
    buscarPerguntas (δ := Int) (EstadoDB.mk false []) "col"
        (fun _ => Except.ok []) (fun _ => none) = []
    ∧ buscarPerguntas (δ := Int) (EstadoDB.mk true []) "col"
        (fun _ => Except.ok []) (fun _ => none) = []
    ∧ buscarPerguntas (δ := Int) (EstadoDB.mk true [("col", Colecao.mk [])]) "col"
        (fun _ => Except.error ()) (fun _ => none) = [] :=
  ⟨(claim_C4 (EstadoDB.mk false []) "col" (fun _ => Except.ok []) (fun _ => none)).1 rfl,
   (claim_C4 (EstadoDB.mk true []) "col" (fun _ => Except.ok []) (fun _ => none)).2.1 rfl,
   (claim_C4 (EstadoDB.mk true [("col", Colecao.mk [])]) "col"
      (fun _ => Except.error ()) (fun _ => none)).2.2 (Colecao.mk []) (by decide) rfl⟩

/-- C9: if the grouping step runs and produces zero valid records, the
build aborts with a failure result after only reading the spreadsheet:
no collection of the given name exists afterwards and nothing is
embedded or inserted. -/
theorem claim_C9 (linhas : List LinhaPlanilha) (nome : String) (forcar : Bool)
    (st : EstadoDB)
    (hvazio : agruparPerguntas linhas = [])
    (halcanca : forcar = true ∨ obterColecao nome st.colecoes = none) :
    (garantirBancoVetorial (some linhas) nome forcar st).1 = none
    ∧ (garantirBancoVetorial (some linhas) nome forcar st).2.2 = [Efeito.lerPlanilha]
    ∧ obterColecao nome
        (garantirBancoVetorial (some linhas) nome forcar st).2.1.colecoes = none := by
  cases halcanca with
  | inl hf =>
    subst hf
    have hcon : construirColecao (some linhas) nome
        { st with dirExiste := true,
                  colecoes := removerColecao nome st.colecoes }
        = (none,
           { st with dirExiste := true,
                     colecoes := removerColecao nome st.colecoes },
           [Efeito.lerPlanilha]) := by
      simp [construirColecao, hvazio]
    refine ⟨?_, ?_, ?_⟩ <;>
      simp [garantirBancoVetorial, hcon, obter_remover]
  | inr hn =>
    have hcon : construirColecao (some linhas) nome { st with dirExiste := true }
        = (none, { st with dirExiste := true }, [Efeito.lerPlanilha]) := by
      simp [construirColecao, hvazio]
    cases hforcar : forcar with
    | true =>
      have hcon2 : construirColecao (some linhas) nome
          { st with dirExiste := true,
                    colecoes := removerColecao nome st.colecoes }
          = (none,
             { st with dirExiste := true,
                       colecoes := removerColecao nome st.colecoes },
             [Efeito.lerPlanilha]) := by
        simp [construirColecao, hvazio]
      refine ⟨?_, ?_, ?_⟩ <;>
        simp [garantirBancoVetorial, hcon2, obter_remover]
    | false =>
      refine ⟨?_, ?_, ?_⟩ <;>
        simp [garantirBancoVetorial, hn, hcon]

theorem claim_C9_witness :
    (garantirBancoVetorial (some [LinhaPlanilha.mk none (some "0-2") none]) "col" false
        (EstadoDB.mk false [])).1 = none
    ∧ (garantirBancoVetorial (some [LinhaPlanilha.mk none (some "0-2") none]) "col" false
        (EstadoDB.mk false [])).2.2 = [Efeito.lerPlanilha]
    ∧ obterColecao "col"
        (garantirBancoVetorial (some [LinhaPlanilha.mk none (some "0-2") none]) "col" false
          (EstadoDB.mk false [])).2.1.colecoes = none :=
  claim_C9 [LinhaPlanilha.mk none (some "0-2") none] "col" false
    (EstadoDB.mk false []) (by decide) (Or.inr (by decide))

/-- C8: a JSON-parse failure on one matched record's stored answers
degrades that single match to the empty answer list (rendered as the
placeholder table) while all other matches and the query succeed
unchanged. -/
theorem claim_C8 {δ : Type} (st : EstadoDB) (nome : String)
    (consulta : Colecao → Except Unit (List (Acerto δ)))
    (decodificar : String → Option (List ItemJson))
    (col : Colecao) (acertos : List (Acerto δ)) (i : Nat) (a : Acerto δ)
    (hdir : st.dirExiste = true)
    (hcol : obterColecao nome st.colecoes = some col)
    (hcons : consulta col = Except.ok acertos)
    (hi : acertos[i]? = some a)
    (hfalha : decodificar (a.respostasJson.getD "[]") = none) :
    (buscarPerguntas st nome consulta decodificar).length = acertos.length
    ∧ (buscarPerguntas st nome consulta decodificar)[i]?
        = some (a.documento, montarTabelaFinal [], a.distancia)
    ∧ montarTabelaFinal []
        = String.intercalate "\n" (cabecalhoTabela ++ [linhaSemResposta])
    ∧ (∀ (j : Nat) (b : Acerto δ) (l : List ItemJson),
        acertos[j]? = some b →
        decodificar (b.respostasJson.getD "[]") = some l →
        (buscarPerguntas st nome consulta decodificar)[j]?
          = some (b.documento, montarTabelaFinal l, b.distancia)) := by
  have hbusca : buscarPerguntas st nome consulta decodificar
      = acertos.map (fun a =>
          (a.documento,
           montarTabelaFinal
             (match decodificar (a.respostasJson.getD "[]") with
              | none => []
              | some l => l),
           a.distancia)) := by
    simp only [buscarPerguntas, hdir, hcol, hcons]
    rfl
  refine ⟨by simp [hbusca], ?_, rfl, ?_⟩
  · rw [hbusca, List.getElem?_map, hi]
    simp [hfalha]
  · intro j b l hj hl
    rw [hbusca, List.getElem?_map, hj]
    simp [hl]

theorem claim_C8_witness :
    (buscarPerguntas (δ := Int)
        (EstadoDB.mk true [("col", Colecao.mk [])]) "col"
        (fun _ => Except.ok
          [Acerto.mk "q1" (some "broken") 0, Acerto.mk "q2" none 1])
        (fun s => if s = "[]" then some [] else none)).length = 2
    ∧ (buscarPerguntas (δ := Int)
        (EstadoDB.mk true [("col", Colecao.mk [])]) "col"
        (fun _ => Except.ok
          [Acerto.mk "q1" (some "broken") 0, Acerto.mk "q2" none 1])
        (fun s => if s = "[]" then some [] else none))[0]?
        = some ("q1", montarTabelaFinal [], 0)
    ∧ montarTabelaFinal []
        = String.intercalate "\n" (cabecalhoTabela ++ [linhaSemResposta])
    ∧ (∀ (j : Nat) (b : Acerto Int) (l : List ItemJson),
        [Acerto.mk "q1" (some "broken") 0, Acerto.mk "q2" none (1 : Int)][j]? = some b →
        (if b.respostasJson.getD "[]" = "[]" then some [] else none) = some l →
        (buscarPerguntas (δ := Int)
          (EstadoDB.mk true [("col", Colecao.mk [])]) "col"
          (fun _ => Except.ok
            [Acerto.mk "q1" (some "broken") 0, Acerto.mk "q2" none 1])
          (fun s => if s = "[]" then some [] else none))[j]?
          = some (b.documento, montarTabelaFinal l, b.distancia)) :=
  claim_C8 (EstadoDB.mk true [("col", Colecao.mk [])]) "col"
    (fun _ => Except.ok [Acerto.mk "q1" (some "broken") 0, Acerto.mk "q2" none 1])
    (fun s => if s = "[]" then some [] else none)
    (Colecao.mk []) [Acerto.mk "q1" (some "broken") 0, Acerto.mk "q2" none 1] 0
    (Acerto.mk "q1" (some "broken") 0) rfl (by decide) rfl rfl (by decide)

/-- C5: rendering an ordered list of answer entries and re-parsing the
rendered data rows (splitting on unescaped column separators and
un-escaping `\|` back to `|`) recovers exactly the same
(ageContext, answer) pairs in the same order; for non-empty input the
rendered table is the fixed two-row header followed by exactly those
data rows. -/
theorem claim_C5 (entradas : List ItemIdade) :
    ((entradas.map (fun e => ItemJson.mk (some e.idade) (some e.resposta))).map
        montarLinhaTabela).map analisarLinha
      = entradas.map (fun e => some (e.idade, e.resposta))
    ∧ (entradas ≠ [] →
        montarTabela (entradas.map (fun e => ItemJson.mk (some e.idade) (some e.resposta)))
          = cabecalhoTabela ++
            (entradas.map (fun e => ItemJson.mk (some e.idade) (some e.resposta))).map
              montarLinhaTabela) := by
  constructor
  · rw [List.map_map, List.map_map]
    apply List.map_congr_left
    intro e _
    exact analisar_montar e.idade e.resposta
  · intro h
    have : (entradas.map
        (fun e => ItemJson.mk (some e.idade) (some e.resposta))).isEmpty = false := by
      simp [List.isEmpty_iff, h]
    simp [montarTabela, this]

theorem claim_C5_witness :
    (([ItemIdade.mk "a | b" "r1", ItemIdade.mk "N/A" " r2 "].map
        (fun e => ItemJson.mk (some e.idade) (some e.resposta))).map
        montarLinhaTabela).map analisarLinha
      = [ItemIdade.mk "a | b" "r1", ItemIdade.mk "N/A" " r2 "].map
          (fun e => some (e.idade, e.resposta))
    ∧ montarTabela
        ([ItemIdade.mk "a | b" "r1", ItemIdade.mk "N/A" " r2 "].map
          (fun e => ItemJson.mk (some e.idade) (some e.resposta)))
        = cabecalhoTabela ++
          ([ItemIdade.mk "a | b" "r1", ItemIdade.mk "N/A" " r2 "].map
            (fun e => ItemJson.mk (some e.idade) (some e.resposta))).map
            montarLinhaTabela :=
  ⟨(claim_C5 [ItemIdade.mk "a | b" "r1", ItemIdade.mk "N/A" " r2 "]).1,
   (claim_C5 [ItemIdade.mk "a | b" "r1", ItemIdade.mk "N/A" " r2 "]).2 (by decide)⟩

/-- C6: every literal pipe inside an age-context or answer value is
rendered prefixed with a backslash (`"a | b"` becomes `"a \| b"`), and
one entry contributes exactly one data row that splits into exactly the
two framed data columns. -/
theorem claim_C6 :
    escaparPipe "a | b" = "a \\| b"
    ∧ (∀ it : ItemJson, montarTabela [it] = cabecalhoTabela ++ [montarLinhaTabela it])
    ∧ (∀ a b : String,
        dividirNaoEscapado (montarLinhaTabela (ItemJson.mk (some a) (some b))).data =
          [[], ' ' :: escaparPipeLista a.data ++ [' '],
           ' ' :: escaparPipeLista b.data ++ [' '], []])
    ∧ (∀ v : List Char, pipesEscapados (escaparPipeLista v) = true) :=
  ⟨by decide, fun it => by simp [montarTabela], dividir_linha, pipes_escapados_escapar⟩

end Gynocare
